import Mathlib

/-!
# Rotating triangle demo (`src/main.cpp`)

A shallow embedding of `main`: every call into GLFW, glad, OpenGL, Dear ImGui
and `std::cout` is an event of a call trace; everything those libraries answer
(return values, the state of the window, what the user does in the colour
editor, the clock) is read from an environment `Env`.  The only data the
program itself computes on are the array `vertices` and the array `color`.
-/

namespace RotatingTriangle

/-! ## Data -/

/-- A C++ `float`, carried as its IEEE-754 binary32 bit pattern.  The program
never does arithmetic on floats, it only stores and copies them. -/
abbrev F32 := Nat

/-- Literal `0.0f` -/
def f0_0 : F32 := 0x00000000
/-- Literal `0.5f` -/
def f0_5 : F32 := 0x3F000000
/-- Literal `-0.5f` -/
def fneg0_5 : F32 := 0xBF000000
/-- Literal `1.0f` -/
def f1_0 : F32 := 0x3F800000
/-- Literal `0.2f` -/
def f0_2 : F32 := 0x3E4CCCCD
/-- Literal `0.3f` -/
def f0_3 : F32 := 0x3E99999A

/-- Size `sizeof(float)` on the platforms OpenGL runs on (`GLfloat` is 32 bits). -/
def sizeofFloat : Nat := 4

/-- Array `float color[3]` -/
structure Color where
  c0 : F32
  c1 : F32
  c2 : F32
deriving DecidableEq, Repr

/-- Initial `static float color[3] = {1.0f, 0.5f, 0.2f};` (line 136) -/
def color0 : Color := ⟨f1_0, f0_5, f0_2⟩

/-- Initial `float vertices[18] = {...};` (lines 101-105) -/
def vertices0 : Array F32 :=
  #[f0_0,    f0_5,    f0_0, f1_0, f0_5, f0_2,  -- top
    fneg0_5, fneg0_5, f0_0, f1_0, f0_5, f0_2,  -- bottom-left
    f0_5,    fneg0_5, f0_0, f1_0, f0_5, f0_2]  -- bottom-right

/-- Size `sizeof(vertices)` for `float vertices[18]`. -/
def sizeofVertices : Nat := 18 * sizeofFloat

/-! ## The per-frame colour update (lines 153-157) -/

/-- The three assignments of iteration `i` of the update loop, in order, each as
(index written, value written):
`vertices[i*6+3] = color[0]; vertices[i*6+4] = color[1]; vertices[i*6+5] = color[2];` -/
def updateWrites (color : Color) (i : Nat) : List (Nat × F32) :=
  [(i * 6 + 3, color.c0), (i * 6 + 4, color.c1), (i * 6 + 5, color.c2)]

/-- All assignments of `for (int i = 0; i < 3; ++i) { ... }`, in execution order. -/
def updateLoopWrites (color : Color) : List (Nat × F32) :=
  (List.range 3).flatMap (updateWrites color)

/-- The indices the update loop assigns to. -/
def updateLoopIndices (color : Color) : List Nat :=
  (updateLoopWrites color).map Prod.fst

/-- The update loop run on `vertices`: the assignments are applied in order. -/
def updateVertexColors (color : Color) (vertices : Array F32) : Array F32 :=
  (updateLoopWrites color).foldl (fun v w => v.setD w.1 w.2) vertices

/-! ## Vertex attribute layout (lines 117-122, 170) -/

/-- One `glVertexAttribPointer(index, size, GL_FLOAT, GL_FALSE, stride, pointer)`;
`stride` and `pointer` are in bytes. -/
structure VertexAttrib where
  index : Nat
  size : Nat
  stride : Nat
  pointer : Nat
deriving DecidableEq, Repr

/-- Position: `glVertexAttribPointer(0, 3, GL_FLOAT, GL_FALSE, 6 * sizeof(float), (void *)0);` -/
def positionAttrib : VertexAttrib := ⟨0, 3, 6 * sizeofFloat, 0⟩

/-- Color: `glVertexAttribPointer(1, 3, GL_FLOAT, GL_FALSE, 6 * sizeof(float), (void *)(3 * sizeof(float)));` -/
def colorAttrib : VertexAttrib := ⟨1, 3, 6 * sizeofFloat, 3 * sizeofFloat⟩

/-- Byte offsets into the bound buffer of the floats an attribute fetches for
vertex number `v`: component `j` is at `pointer + v * stride + j * sizeof(float)`. -/
def VertexAttrib.bytesRead (a : VertexAttrib) (v : Nat) : List Nat :=
  (List.range a.size).map fun j => a.pointer + v * a.stride + j * sizeofFloat

/-- Byte offsets fetched by an attribute during `glDrawArrays(mode, first, count)`. -/
def VertexAttrib.drawBytes (a : VertexAttrib) (first count : Nat) : List Nat :=
  ((List.range count).map (first + ·)).flatMap a.bytesRead

/-- Indices into `vertices` of the floats fetched by an attribute during
`glDrawArrays(mode, first, count)`. -/
def VertexAttrib.drawIndices (a : VertexAttrib) (first count : Nat) : List Nat :=
  (a.drawBytes first count).map (· / sizeofFloat)

/-! ## Calls and environment -/

/-- The `type` argument of `glCreateShader`. -/
inductive ShaderType where
  | GL_VERTEX_SHADER
  | GL_FRAGMENT_SHADER
deriving DecidableEq, Repr

/-- The two GLSL source strings of the program (lines 16-39). -/
inductive ShaderSource where
  | vertexShaderSource
  | fragmentShaderSource
deriving DecidableEq, Repr

/-- The hints passed to `glfwWindowHint` (lines 55-59). -/
inductive WindowHint where
  | GLFW_CONTEXT_VERSION_MAJOR_3
  | GLFW_CONTEXT_VERSION_MINOR_3
  | GLFW_OPENGL_PROFILE_CORE
  | GLFW_OPENGL_FORWARD_COMPAT_TRUE
deriving DecidableEq, Repr

/-- The `mode` argument of `glDrawArrays`. -/
inductive DrawMode where
  | GL_TRIANGLES
deriving DecidableEq, Repr

/-- One call the program issues to a library, with the arguments that vary or
matter.  Constant arguments are named in the comments. -/
inductive Call where
  | glfwInit
  | glfwWindowHint (hint : WindowHint)
  /-- Call `glfwCreateWindow(width, height, "Rotating Triangle", nullptr, nullptr)` -/
  | glfwCreateWindow (width height : Nat)
  | glfwMakeContextCurrent (window : Nat)
  /-- Call `glfwSetFramebufferSizeCallback(window, framebuffer_size_callback)` -/
  | glfwSetFramebufferSizeCallback (window : Nat)
  /-- Call `gladLoadGLLoader((GLADloadproc)glfwGetProcAddress)` -/
  | gladLoadGLLoader
  | glCreateShader (type : ShaderType)
  /-- Call `glShaderSource(shader, 1, &src, nullptr)` -/
  | glShaderSource (shader : Nat) (src : ShaderSource)
  | glCompileShader (shader : Nat)
  /-- Call `glGetShaderiv(shader, GL_COMPILE_STATUS, &success)` -/
  | glGetShaderiv (shader : Nat)
  /-- Call `glGetShaderInfoLog(shader, 512, nullptr, infoLog)` -/
  | glGetShaderInfoLog (shader : Nat) (bufSize : Nat)
  /-- Text written to `std::cout`. -/
  | cout (text : String)
  | glCreateProgram
  | glAttachShader (program shader : Nat)
  | glLinkProgram (program : Nat)
  | glDeleteShader (shader : Nat)
  /-- Call `glGenVertexArrays(1, &VAO)` -/
  | glGenVertexArrays (n : Nat)
  /-- Call `glGenBuffers(1, &VBO)` -/
  | glGenBuffers (n : Nat)
  | glBindVertexArray (array : Nat)
  /-- Call `glBindBuffer(GL_ARRAY_BUFFER, buffer)` -/
  | glBindBuffer (buffer : Nat)
  /-- Call `glBufferData(GL_ARRAY_BUFFER, size, data, GL_DYNAMIC_DRAW)` -/
  | glBufferData (size : Nat) (data : Array F32)
  /-- Call `glVertexAttribPointer(index, size, GL_FLOAT, GL_FALSE, stride, pointer)` -/
  | glVertexAttribPointer (attrib : VertexAttrib)
  | glEnableVertexAttribArray (index : Nat)
  | IMGUI_CHECKVERSION
  | ImGui_CreateContext
  /-- Call `ImGui::GetIO()` -/
  | ImGui_GetIo
  | ImGui_StyleColorsDark
  /-- Call `ImGui_ImplGlfw_InitForOpenGL(window, true)` -/
  | ImGui_ImplGlfw_InitForOpenGL (window : Nat)
  /-- Call `ImGui_ImplOpenGL3_Init("#version 330")` -/
  | ImGui_ImplOpenGL3_Init
  | glfwWindowShouldClose (window : Nat)
  /-- Call `glfwGetKey(window, GLFW_KEY_ESCAPE)` -/
  | glfwGetKey (window : Nat)
  /-- Call `glfwSetWindowShouldClose(window, true)` -/
  | glfwSetWindowShouldClose (window : Nat)
  | glClearColor (r g b a : F32)
  /-- Call `glClear(GL_COLOR_BUFFER_BIT)` -/
  | glClear
  | ImGui_ImplOpenGL3_NewFrame
  | ImGui_ImplGlfw_NewFrame
  | ImGui_NewFrame
  /-- Call `ImGui::Begin("Triangle Color")` -/
  | ImGui_Begin
  /-- Call `ImGui::ColorEdit3("Vertex Color", color)`; `result` is the content of
  `color` when the call returns. -/
  | ImGui_ColorEdit3 (result : Color)
  | ImGui_End
  | ImGui_Render
  /-- Call `glBufferSubData(GL_ARRAY_BUFFER, offset, size, data)` -/
  | glBufferSubData (offset size : Nat) (data : Array F32)
  | glUseProgram (program : Nat)
  | glfwGetTime
  /-- Call `glGetUniformLocation(program, "transform")` -/
  | glGetUniformLocation (program : Nat)
  /-- Call `glUniformMatrix4fv(location, 1, GL_FALSE, glm::value_ptr(trans))` with
  `trans = glm::rotate(glm::mat4(1.0f), angle, glm::vec3(0.0f, 0.0f, 1.0f))`. -/
  | glUniformMatrix4fv (location : Int) (angle : F32)
  | glDrawArrays (mode : DrawMode) (first count : Nat)
  | ImGui_GetDrawData
  | ImGui_ImplOpenGL3_RenderDrawData
  | glfwSwapBuffers (window : Nat)
  | glfwPollEvents
  | ImGui_ImplOpenGL3_Shutdown
  | ImGui_ImplGlfw_Shutdown
  | ImGui_DestroyContext
  /-- Call `glDeleteVertexArrays(1, &VAO)` -/
  | glDeleteVertexArrays (array : Nat)
  /-- Call `glDeleteBuffers(1, &VBO)` -/
  | glDeleteBuffers (buffer : Nat)
  | glDeleteProgram (program : Nat)
  | glfwTerminate
deriving Repr

/-- Constant `GLFW_PRESS` of `glfw3.h`. -/
def GLFW_PRESS : Int := 1

/-- Everything the libraries answer during one run.  Answers inside the render
loop are indexed by the iteration number `k` (0 for the first loop test). -/
structure Env where
  /-- Whether `__APPLE__` is defined. -/
  apple : Bool
  /-- Return value of `glfwInit()`; 0 is `GLFW_FALSE`. -/
  glfwInit : Int
  /-- Pointer returned by `glfwCreateWindow`; 0 is `nullptr`. -/
  glfwCreateWindow : Nat
  /-- Return value of `gladLoadGLLoader`; 0 is failure. -/
  gladLoadGLLoader : Int
  /-- Handle returned by `glCreateShader(type)`. -/
  glCreateShader : ShaderType → Nat
  /-- Value of `GL_COMPILE_STATUS` stored into `success` by `glGetShaderiv(shader, ...)`. -/
  glGetShaderiv : Nat → Int
  /-- Text stored into `infoLog` by `glGetShaderInfoLog(shader, ...)`. -/
  glGetShaderInfoLog : Nat → String
  /-- Handle returned by `glCreateProgram()`. -/
  glCreateProgram : Nat
  /-- Name stored into `VAO` by `glGenVertexArrays`. -/
  glGenVertexArrays : Nat
  /-- Name stored into `VBO` by `glGenBuffers`. -/
  glGenBuffers : Nat
  /-- Return value of the `k`-th `glfwWindowShouldClose(window)`; 0 is false. -/
  glfwWindowShouldClose : Nat → Int
  /-- Return value of `glfwGetKey(window, GLFW_KEY_ESCAPE)` in iteration `k`. -/
  glfwGetKey : Nat → Int
  /-- What `ImGui::ColorEdit3` of iteration `k` leaves in `color`, given its
  content before the call. -/
  ImGui_ColorEdit3 : Nat → Color → Color
  /-- Value of `(float)glfwGetTime()` in iteration `k`. -/
  glfwGetTime : Nat → F32
  /-- Return value of `glGetUniformLocation(shaderProgram, "transform")` in
  iteration `k`. -/
  glGetUniformLocation : Nat → Int

/-! ## `main` -/

/-- The lambda `compileShader` (lines 73-85): the calls it issues and the
handle it returns. -/
def compileShader (env : Env) (type : ShaderType) (src : ShaderSource) : List Call × Nat :=
  let shader := env.glCreateShader type
  let success := env.glGetShaderiv shader
  ([.glCreateShader type, .glShaderSource shader src, .glCompileShader shader,
    .glGetShaderiv shader] ++
   (if success = 0 then
      [.glGetShaderInfoLog shader 512,
       .cout ("Shader compilation error:\n" ++ env.glGetShaderInfoLog shader ++ "\n")]
    else []),
   shader)

/-- Function `processInput` (lines 45-48) in iteration `k`. -/
def processInput (env : Env) (window : Nat) (k : Nat) : List Call :=
  .glfwGetKey window ::
    (if env.glfwGetKey k = GLFW_PRESS then [.glfwSetWindowShouldClose window] else [])

/-- The handles `main` holds once the GPU resources exist. -/
structure Handles where
  window : Nat
  shaderProgram : Nat
  VAO : Nat
  VBO : Nat
deriving DecidableEq, Repr

/-- The variables the render loop reads and writes. -/
structure LoopState where
  vertices : Array F32
  color : Color
deriving DecidableEq, Repr

/-- Lines 52-53 and 55-60: `glfwInit` succeeded, window hints. -/
def windowHints (env : Env) : List Call :=
  [.glfwWindowHint .GLFW_CONTEXT_VERSION_MAJOR_3,
   .glfwWindowHint .GLFW_CONTEXT_VERSION_MINOR_3,
   .glfwWindowHint .GLFW_OPENGL_PROFILE_CORE] ++
  (if env.apple then [.glfwWindowHint .GLFW_OPENGL_FORWARD_COMPAT_TRUE] else [])

/-- Lines 87-133: shader program, vertex data and ImGui setup, run once after
the three initialisation steps succeeded. -/
def createResources (env : Env) (window : Nat) : List Call × Handles :=
  let vs := compileShader env .GL_VERTEX_SHADER .vertexShaderSource
  let fs := compileShader env .GL_FRAGMENT_SHADER .fragmentShaderSource
  let vertexShader := vs.2
  let fragmentShader := fs.2
  let shaderProgram := env.glCreateProgram
  let VAO := env.glGenVertexArrays
  let VBO := env.glGenBuffers
  (vs.1 ++ fs.1 ++
   [.glCreateProgram,
    .glAttachShader shaderProgram vertexShader,
    .glAttachShader shaderProgram fragmentShader,
    .glLinkProgram shaderProgram,
    .glDeleteShader vertexShader,
    .glDeleteShader fragmentShader,
    .glGenVertexArrays 1,
    .glGenBuffers 1,
    .glBindVertexArray VAO,
    .glBindBuffer VBO,
    .glBufferData sizeofVertices vertices0,
    .glVertexAttribPointer positionAttrib,
    .glEnableVertexAttribArray 0,
    .glVertexAttribPointer colorAttrib,
    .glEnableVertexAttribArray 1,
    .glBindVertexArray 0,
    .IMGUI_CHECKVERSION,
    .ImGui_CreateContext,
    .ImGui_GetIo,
    .ImGui_StyleColorsDark,
    .ImGui_ImplGlfw_InitForOpenGL window,
    .ImGui_ImplOpenGL3_Init],
   ⟨window, shaderProgram, VAO, VBO⟩)

/-- The body of the render loop (lines 139-177) in iteration `k`: the calls it
issues and the variables it leaves. -/
def loopBody (env : Env) (g : Handles) (k : Nat) (st : LoopState) : List Call × LoopState :=
  let color := env.ImGui_ColorEdit3 k st.color
  let vertices := updateVertexColors color st.vertices
  (processInput env g.window k ++
   [.glClearColor f0_2 f0_3 f0_3 f1_0,
    .glClear,
    .ImGui_ImplOpenGL3_NewFrame,
    .ImGui_ImplGlfw_NewFrame,
    .ImGui_NewFrame,
    .ImGui_Begin,
    .ImGui_ColorEdit3 color,
    .ImGui_End,
    .ImGui_Render,
    .glBindBuffer g.VBO,
    .glBufferSubData 0 sizeofVertices vertices,
    .glUseProgram g.shaderProgram,
    .glfwGetTime,
    .glGetUniformLocation g.shaderProgram,
    .glUniformMatrix4fv (env.glGetUniformLocation k) (env.glfwGetTime k),
    .glBindVertexArray g.VAO,
    .glDrawArrays .GL_TRIANGLES 0 3,
    .glBindVertexArray 0,
    .ImGui_GetDrawData,
    .ImGui_ImplOpenGL3_RenderDrawData,
    .glfwSwapBuffers g.window,
    .glfwPollEvents],
   ⟨vertices, color⟩)

/-- A run of the render loop: one entry per executed iteration (the loop test
that let it in, then the body), and whether the loop was left. -/
structure LoopRun where
  frames : List (List Call)
  exited : Bool
deriving Repr

/-- Loop `while (!glfwWindowShouldClose(window)) { ... }` (lines 138-178) from
iteration `k` on, for at most `fuel` loop tests. -/
def renderLoop (env : Env) (g : Handles) : Nat → Nat → LoopState → LoopRun
  | 0, _, _ => ⟨[], false⟩
  | fuel + 1, k, st =>
    if env.glfwWindowShouldClose k ≠ 0 then ⟨[], true⟩
    else
      let b := loopBody env g k st
      let r := renderLoop env g fuel (k + 1) b.2
      ⟨(.glfwWindowShouldClose g.window :: b.1) :: r.frames, r.exited⟩

/-- Cleanup (lines 181-189). -/
def cleanup (g : Handles) : List Call :=
  [.ImGui_ImplOpenGL3_Shutdown,
   .ImGui_ImplGlfw_Shutdown,
   .ImGui_DestroyContext,
   .glDeleteVertexArrays g.VAO,
   .glDeleteBuffers g.VBO,
   .glDeleteProgram g.shaderProgram,
   .glfwTerminate]

/-- What a run of `main` did: the calls before the render loop, the executed
loop iterations, the calls after the loop, and the value returned (`none`
while the loop is still running). -/
structure Outcome where
  setup : List Call
  frames : List (List Call)
  finish : List Call
  exit : Option Int
deriving Repr

/-- All calls of a run, in the order issued. -/
def Outcome.trace (o : Outcome) : List Call :=
  o.setup ++ o.frames.flatten ++ o.finish

/-- Function `main` (lines 50-191), observed for at most `fuel` loop tests. -/
def main (env : Env) (fuel : Nat) : Outcome :=
  if env.glfwInit = 0 then
    ⟨[.glfwInit], [], [], some (-1)⟩
  else
    let window := env.glfwCreateWindow
    if window = 0 then
      ⟨[.glfwInit] ++ windowHints env ++ [.glfwCreateWindow 800 600], [], [], some (-1)⟩
    else if env.gladLoadGLLoader = 0 then
      ⟨[.glfwInit] ++ windowHints env ++
        [.glfwCreateWindow 800 600, .glfwMakeContextCurrent window,
         .glfwSetFramebufferSizeCallback window, .gladLoadGLLoader], [], [], some (-1)⟩
    else
      let res := createResources env window
      let g := res.2
      let run := renderLoop env g fuel 0 ⟨vertices0, color0⟩
      ⟨[.glfwInit] ++ windowHints env ++
        [.glfwCreateWindow 800 600, .glfwMakeContextCurrent window,
         .glfwSetFramebufferSizeCallback window, .gladLoadGLLoader] ++ res.1,
       run.frames,
       if run.exited then .glfwWindowShouldClose window :: cleanup g else [],
       if run.exited then some 0 else none⟩

/-- The position components of the three vertices held in `v`: the floats
attribute 0 fetches for `glDrawArrays(GL_TRIANGLES, 0, 3)`. -/
def positionsOf (v : Array F32) : List (Option F32) :=
  (positionAttrib.drawIndices 0 3).map fun j => v[j]?

/-! ## Classifying calls -/

/-- Is the call a `glBufferSubData`? -/
def Call.isBufferSubData : Call → Bool
  | .glBufferSubData _ _ _ => true
  | _ => false

/-- Is the call a `glVertexAttribPointer`? -/
def Call.isVertexAttribPointer : Call → Bool
  | .glVertexAttribPointer _ => true
  | _ => false

/-- Is the call a `glDrawArrays`? -/
def Call.isDrawArrays : Call → Bool
  | .glDrawArrays _ _ _ => true
  | _ => false

/-- Is the call one of the steps of a frame that the render loop is specified
by: the ImGui frame (NewFrame, Begin, ColorEdit3, End, Render), the buffer
upload, the draw (glUseProgram, the uniform, glDrawArrays), the overlay
(RenderDrawData) and the presentation (glfwSwapBuffers)? -/
def Call.isFrameStep : Call → Bool
  | .ImGui_NewFrame => true
  | .ImGui_Begin => true
  | .ImGui_ColorEdit3 _ => true
  | .ImGui_End => true
  | .ImGui_Render => true
  | .glBufferSubData _ _ _ => true
  | .glUseProgram _ => true
  | .glUniformMatrix4fv _ _ => true
  | .glDrawArrays _ _ _ => true
  | .ImGui_ImplOpenGL3_RenderDrawData => true
  | .glfwSwapBuffers _ => true
  | _ => false

/-- Is the call one of the GLFW and glad initialisation calls of lines 52-70? -/
def Call.isInitStep : Call → Bool
  | .glfwInit => true
  | .glfwWindowHint _ => true
  | .glfwCreateWindow _ _ => true
  | .glfwMakeContextCurrent _ => true
  | .glfwSetFramebufferSizeCallback _ => true
  | .gladLoadGLLoader => true
  | _ => false

/-- Is the call a write to `std::cout`? -/
def Call.isCout : Call → Bool
  | .cout _ => true
  | _ => false

/-- An environment in which everything succeeds, the user picks the colour
(0.2, 0.3, 1.0) in the first frame and the window is closed after it. -/
def demoEnv : Env where
  apple := false
  glfwInit := 1
  glfwCreateWindow := 1
  gladLoadGLLoader := 1
  glCreateShader := fun t => match t with
    | .GL_VERTEX_SHADER => 1
    | .GL_FRAGMENT_SHADER => 2
  glGetShaderiv := fun _ => 1
  glGetShaderInfoLog := fun _ => ""
  glCreateProgram := 3
  glGenVertexArrays := 1
  glGenBuffers := 1
  glfwWindowShouldClose := fun k => if k = 0 then 0 else 1
  glfwGetKey := fun _ => 0
  ImGui_ColorEdit3 := fun _ _ => ⟨f0_2, f0_3, f1_0⟩
  glfwGetTime := fun _ => f0_5
  glGetUniformLocation := fun _ => 0

/-- The single loop iteration of `main` in `demoEnv`. -/
def demoFrame : List Call :=
  [.glfwWindowShouldClose 1,
   .glfwGetKey 1,
   .glClearColor f0_2 f0_3 f0_3 f1_0,
   .glClear,
   .ImGui_ImplOpenGL3_NewFrame,
   .ImGui_ImplGlfw_NewFrame,
   .ImGui_NewFrame,
   .ImGui_Begin,
   .ImGui_ColorEdit3 ⟨f0_2, f0_3, f1_0⟩,
   .ImGui_End,
   .ImGui_Render,
   .glBindBuffer 1,
   .glBufferSubData 0 72
     #[f0_0,    f0_5,    f0_0, f0_2, f0_3, f1_0,
       fneg0_5, fneg0_5, f0_0, f0_2, f0_3, f1_0,
       f0_5,    fneg0_5, f0_0, f0_2, f0_3, f1_0],
   .glUseProgram 3,
   .glfwGetTime,
   .glGetUniformLocation 3,
   .glUniformMatrix4fv 0 f0_5,
   .glBindVertexArray 1,
   .glDrawArrays .GL_TRIANGLES 0 3,
   .glBindVertexArray 0,
   .ImGui_GetDrawData,
   .ImGui_ImplOpenGL3_RenderDrawData,
   .glfwSwapBuffers 1,
   .glfwPollEvents]

/-- Is the call one of the creating or allocating GL calls (glCreateShader,
glCompileShader, glCreateProgram, glLinkProgram, glGenVertexArrays,
glGenBuffers, glBufferData, glVertexAttribPointer)? -/
def Call.isCreation : Call → Bool
  | .glCreateShader _ => true
  | .glCompileShader _ => true
  | .glCreateProgram => true
  | .glLinkProgram _ => true
  | .glGenVertexArrays _ => true
  | .glGenBuffers _ => true
  | .glBufferData _ _ => true
  | .glVertexAttribPointer _ => true
  | _ => false

/-- Is the call a `glBufferData`? -/
def Call.isBufferData : Call → Bool
  | .glBufferData _ _ => true
  | _ => false

/-- Is the call part of reporting a failed compilation (fetching the info log,
writing to `std::cout`)? -/
def Call.isCompileReport : Call → Bool
  | .glGetShaderInfoLog _ _ => true
  | .cout _ => true
  | _ => false

/-- The environment `env` with other compile results: `status` is what
`glGetShaderiv` stores into `success`, `log` what `glGetShaderInfoLog` stores
into `infoLog`. -/
def Env.withCompileResult (env : Env) (status : Nat → Int) (log : Nat → String) : Env :=
  { env with glGetShaderiv := status, glGetShaderInfoLog := log }

/-- Is the call the creation or the destruction of one of the paired resources:
the GLFW library, a shader object, the shader program, the VAO, the VBO, the
ImGui context, the ImGui GLFW backend, the ImGui OpenGL3 backend? -/
def Call.isLifecycle : Call → Bool
  | .glfwInit => true
  | .glfwTerminate => true
  | .glCreateShader _ => true
  | .glDeleteShader _ => true
  | .glCreateProgram => true
  | .glDeleteProgram _ => true
  | .glGenVertexArrays _ => true
  | .glDeleteVertexArrays _ => true
  | .glGenBuffers _ => true
  | .glDeleteBuffers _ => true
  | .ImGui_CreateContext => true
  | .ImGui_DestroyContext => true
  | .ImGui_ImplGlfw_InitForOpenGL _ => true
  | .ImGui_ImplGlfw_Shutdown => true
  | .ImGui_ImplOpenGL3_Init => true
  | .ImGui_ImplOpenGL3_Shutdown => true
  | _ => false

/-- Is the call `glfwTerminate`? -/
def Call.isGlfwTerminate : Call → Bool
  | .glfwTerminate => true
  | _ => false

/-- An environment in which `glfwInit` fails. -/
def glfwInitFailsEnv : Env := { demoEnv with glfwInit := 0 }

/-- An environment in which `glfwInit` succeeds and `glfwCreateWindow` returns
`nullptr`. -/
def noWindowEnv : Env := { demoEnv with glfwCreateWindow := 0 }

/-- An environment in which `glfwInit` and `glfwCreateWindow` succeed and
`gladLoadGLLoader` fails. -/
def gladFailsEnv : Env := { demoEnv with gladLoadGLLoader := 0 }

/-- Is the call one of the three calls that compute and upload the `transform`
uniform (glfwGetTime, glGetUniformLocation, glUniformMatrix4fv)? -/
def Call.isTransformStep : Call → Bool
  | .glfwGetTime => true
  | .glGetUniformLocation _ => true
  | .glUniformMatrix4fv _ _ => true
  | _ => false

/-- Modelled from the spec: `glm::rotate` belongs to the external math library
and is not in the source; the spec calls it "a textbook 4×4 rotation matrix
multiply".  This is the textbook homogeneous rotation matrix about the unit
axis `u`, for an angle given by its cosine `c` and its sine `s`. -/
def rotationMatrix {R : Type} [CommRing R] (c s : R) (u : Fin 3 → R) :
    Matrix (Fin 4) (Fin 4) R :=
  !![c + (1 - c) * u 0 * u 0,       (1 - c) * u 0 * u 1 - s * u 2, (1 - c) * u 0 * u 2 + s * u 1, 0;
     (1 - c) * u 1 * u 0 + s * u 2, c + (1 - c) * u 1 * u 1,       (1 - c) * u 1 * u 2 - s * u 0, 0;
     (1 - c) * u 2 * u 0 - s * u 1, (1 - c) * u 2 * u 1 + s * u 0, c + (1 - c) * u 2 * u 2,       0;
     0,                             0,                             0,                             1]

/-- Modelled from the spec: `glm::rotate(m, angle, axis)` for a unit `axis`, the
"rotation matrix multiply" of the spec: `m` times the rotation matrix.  The
angle enters through `c = cos angle` and `s = sin angle`. -/
def glmRotate {R : Type} [CommRing R] (m : Matrix (Fin 4) (Fin 4) R) (c s : R)
    (axis : Fin 3 → R) : Matrix (Fin 4) (Fin 4) R :=
  m * rotationMatrix c s axis

/-- The axis `glm::vec3(0.0f, 0.0f, 1.0f)` of line 164. -/
def zAxis {R : Type} [CommRing R] : Fin 3 → R := ![0, 0, 1]

/-- The vertex shader's `transform * vec4(aPos, 1.0)` (line 25) for
`aPos = (x, y, z)`. -/
def glPosition {R : Type} [CommRing R] (transform : Matrix (Fin 4) (Fin 4) R) (x y z : R) :
    Fin 4 → R :=
  transform.mulVec ![x, y, z, 1]

/-- The calls of `main` up to and including a successful `gladLoadGLLoader`. -/
def initCalls (env : Env) : List Call :=
  [.glfwInit] ++ windowHints env ++
    [.glfwCreateWindow 800 600, .glfwMakeContextCurrent env.glfwCreateWindow,
     .glfwSetFramebufferSizeCallback env.glfwCreateWindow, .gladLoadGLLoader]

/-! ## The colour update: helper lemmas -/

theorem getElem?_setD (a : Array F32) (i j : Nat) (v : F32) :
    (a.setD i v)[j]? = if j = i ∧ i < a.size then some v else a[j]? := by
  by_cases h : i < a.size
  · by_cases e : j = i
    · subst e
      simp [h]
    · have e2 : ¬ i = j := fun x => e x.symm
      simp [Array.setD, h, e, e2]
  · simp [Array.setD, h]

theorem updateLoopWrites_eq (c : Color) :
    updateLoopWrites c =
      [(3, c.c0), (4, c.c1), (5, c.c2), (9, c.c0), (10, c.c1), (11, c.c2),
       (15, c.c0), (16, c.c1), (17, c.c2)] := rfl

theorem updateLoopIndices_eq (c : Color) :
    updateLoopIndices c = [3, 4, 5, 9, 10, 11, 15, 16, 17] := rfl

theorem size_updateVertexColors (c : Color) (v : Array F32) :
    (updateVertexColors c v).size = v.size := by
  simp [updateVertexColors, updateLoopWrites_eq]

/-- Reading the updated array at `j`: a written index holds the colour
component last written there, any other index holds what it held before. -/
theorem getElem?_updateVertexColors (c : Color) (v : Array F32) (h : v.size = 18) (j : Nat) :
    (updateVertexColors c v)[j]? =
      if j = 3 ∨ j = 9 ∨ j = 15 then some c.c0
      else if j = 4 ∨ j = 10 ∨ j = 16 then some c.c1
      else if j = 5 ∨ j = 11 ∨ j = 17 then some c.c2
      else v[j]? := by
  simp only [updateVertexColors, updateLoopWrites_eq, List.foldl_cons, List.foldl_nil,
    getElem?_setD, Array.size_setD, h]
  by_cases h3 : j = 3 <;> by_cases h4 : j = 4 <;> by_cases h5 : j = 5 <;>
  by_cases h9 : j = 9 <;> by_cases h10 : j = 10 <;> by_cases h11 : j = 11 <;>
  by_cases h15 : j = 15 <;> by_cases h16 : j = 16 <;> by_cases h17 : j = 17 <;>
  first
    | omega
    | simp [*]

theorem positionsOf_eq (v : Array F32) :
    positionsOf v = [v[0]?, v[1]?, v[2]?, v[6]?, v[7]?, v[8]?, v[12]?, v[13]?, v[14]?] := rfl

theorem positionsOf_updateVertexColors (c : Color) (v : Array F32) (h : v.size = 18) :
    positionsOf (updateVertexColors c v) = positionsOf v := by
  simp [positionsOf_eq, getElem?_updateVertexColors c v h]

/-! ## The render loop: helper lemmas -/

theorem filter_isBufferSubData_processInput (env : Env) (w k : Nat) :
    (processInput env w k).filter Call.isBufferSubData = [] := by
  unfold processInput
  split <;> rfl

theorem filter_isDrawArrays_processInput (env : Env) (w k : Nat) :
    (processInput env w k).filter Call.isDrawArrays = [] := by
  unfold processInput
  split <;> rfl

theorem filter_isBufferSubData_loopBody (env : Env) (g : Handles) (k : Nat) (st : LoopState) :
    (loopBody env g k st).1.filter Call.isBufferSubData =
      [.glBufferSubData 0 sizeofVertices
        (updateVertexColors (env.ImGui_ColorEdit3 k st.color) st.vertices)] := by
  simp only [loopBody, List.filter_append, filter_isBufferSubData_processInput]
  rfl

/-- Every executed iteration of the render loop is a loop test followed by the
loop body run on an 18-float `vertices` that still holds the initial positions. -/
theorem renderLoop_frames (env : Env) (g : Handles) :
    ∀ (fuel k : Nat) (st : LoopState), st.vertices.size = 18 →
      positionsOf st.vertices = positionsOf vertices0 →
      ∀ f ∈ (renderLoop env g fuel k st).frames,
        ∃ (j : Nat) (s : LoopState), s.vertices.size = 18 ∧
          positionsOf s.vertices = positionsOf vertices0 ∧
          env.glfwWindowShouldClose j = 0 ∧
          f = .glfwWindowShouldClose g.window :: (loopBody env g j s).1 := by
  intro fuel
  induction fuel with
  | zero => intro k st _ _ f hf; simp [renderLoop] at hf
  | succ n ih =>
    intro k st hsz hpos f hf
    unfold renderLoop at hf
    by_cases hc : env.glfwWindowShouldClose k = 0
    · simp only [hc, ne_eq, not_true_eq_false, if_false, List.mem_cons] at hf
      rcases hf with rfl | hf
      · exact ⟨k, st, hsz, hpos, hc, rfl⟩
      · refine ih (k + 1) _ ?_ ?_ f hf
        · simp [loopBody, size_updateVertexColors, hsz]
        · simp only [loopBody]
          rw [positionsOf_updateVertexColors _ _ hsz, hpos]
    · simp [hc] at hf

theorem main_glfwInit_fails (env : Env) (fuel : Nat) (h : env.glfwInit = 0) :
    main env fuel = ⟨[.glfwInit], [], [], some (-1)⟩ := by
  simp [main, h]

theorem main_glfwCreateWindow_fails (env : Env) (fuel : Nat) (h1 : env.glfwInit ≠ 0)
    (h2 : env.glfwCreateWindow = 0) :
    main env fuel =
      ⟨[.glfwInit] ++ windowHints env ++ [.glfwCreateWindow 800 600], [], [], some (-1)⟩ := by
  simp [main, h1, h2]

theorem main_gladLoadGLLoader_fails (env : Env) (fuel : Nat) (h1 : env.glfwInit ≠ 0)
    (h2 : env.glfwCreateWindow ≠ 0) (h3 : env.gladLoadGLLoader = 0) :
    main env fuel = ⟨initCalls env, [], [], some (-1)⟩ := by
  simp [main, h1, h2, h3, initCalls]

theorem main_initialised (env : Env) (fuel : Nat) (h1 : env.glfwInit ≠ 0)
    (h2 : env.glfwCreateWindow ≠ 0) (h3 : env.gladLoadGLLoader ≠ 0) :
    main env fuel =
      ⟨initCalls env ++ (createResources env env.glfwCreateWindow).1,
       (renderLoop env (createResources env env.glfwCreateWindow).2 fuel 0
          ⟨vertices0, color0⟩).frames,
       if (renderLoop env (createResources env env.glfwCreateWindow).2 fuel 0
            ⟨vertices0, color0⟩).exited
       then .glfwWindowShouldClose env.glfwCreateWindow ::
              cleanup (createResources env env.glfwCreateWindow).2
       else [],
       if (renderLoop env (createResources env env.glfwCreateWindow).2 fuel 0
            ⟨vertices0, color0⟩).exited
       then some 0 else none⟩ := by
  simp [main, h1, h2, h3, initCalls]

/-- The render loop is left at the first loop test that reports the window
should close, provided the fuel reaches it. -/
theorem renderLoop_exits (env : Env) (g : Handles) :
    ∀ (n k : Nat) (st : LoopState), env.glfwWindowShouldClose (k + n) ≠ 0 →
      (∀ i, i < n → env.glfwWindowShouldClose (k + i) = 0) →
      ∀ fuel, n < fuel →
        (renderLoop env g fuel k st).exited = true ∧
        (renderLoop env g fuel k st).frames.length = n := by
  intro n
  induction n with
  | zero =>
    intro k st hc _ fuel hfuel
    obtain ⟨m, rfl⟩ : ∃ m, fuel = m + 1 := ⟨fuel - 1, by omega⟩
    have hc0 : env.glfwWindowShouldClose k ≠ 0 := by simpa using hc
    simp [renderLoop, hc0]
  | succ n ih =>
    intro k st hc hopen fuel hfuel
    obtain ⟨m, rfl⟩ : ∃ m, fuel = m + 1 := ⟨fuel - 1, by omega⟩
    have h0 : env.glfwWindowShouldClose k = 0 := by simpa using hopen 0 (by omega)
    have hc2 : env.glfwWindowShouldClose (k + 1 + n) ≠ 0 := by
      have e : k + 1 + n = k + (n + 1) := by omega
      rw [e]; exact hc
    have hopen2 : ∀ i, i < n → env.glfwWindowShouldClose (k + 1 + i) = 0 := by
      intro i hi
      have e : k + 1 + i = k + (i + 1) := by omega
      rw [e]; exact hopen (i + 1) (by omega)
    have := ih (k + 1) (loopBody env g k st).2 hc2 hopen2 m (by omega)
    simp [renderLoop, h0, this]

/-- Once initialised, `main` returns 0 when the window is reported closed at
the `n`-th loop test, after `n` loop iterations. -/
theorem main_returns_zero (env : Env) (n fuel : Nat) (h1 : env.glfwInit ≠ 0)
    (h2 : env.glfwCreateWindow ≠ 0) (h3 : env.gladLoadGLLoader ≠ 0)
    (hc : env.glfwWindowShouldClose n ≠ 0)
    (hopen : ∀ i, i < n → env.glfwWindowShouldClose i = 0) (hfuel : n < fuel) :
    (main env fuel).exit = some 0 ∧ (main env fuel).frames.length = n := by
  have h := renderLoop_exits env (createResources env env.glfwCreateWindow).2 n 0
    ⟨vertices0, color0⟩ (by simpa using hc) (by simpa using hopen) fuel hfuel
  rw [main_initialised env fuel h1 h2 h3]
  simp [h.1, h.2]

/-- The iterations of a run of `main` are iterations of the render loop with the
handles `createResources` returned, and only exist when initialisation succeeded. -/
theorem main_frames (env : Env) (fuel : Nat) (f : List Call) (hf : f ∈ (main env fuel).frames) :
    (env.glfwInit ≠ 0 ∧ env.glfwCreateWindow ≠ 0 ∧ env.gladLoadGLLoader ≠ 0) ∧
    ∃ (j : Nat) (s : LoopState), s.vertices.size = 18 ∧
      positionsOf s.vertices = positionsOf vertices0 ∧
      env.glfwWindowShouldClose j = 0 ∧
      f = .glfwWindowShouldClose env.glfwCreateWindow ::
            (loopBody env (createResources env env.glfwCreateWindow).2 j s).1 := by
  by_cases h1 : env.glfwInit = 0
  · simp [main_glfwInit_fails env fuel h1] at hf
  by_cases h2 : env.glfwCreateWindow = 0
  · simp [main_glfwCreateWindow_fails env fuel h1 h2] at hf
  by_cases h3 : env.gladLoadGLLoader = 0
  · simp [main_gladLoadGLLoader_fails env fuel h1 h2 h3] at hf
  rw [main_initialised env fuel h1 h2 h3] at hf
  exact ⟨⟨h1, h2, h3⟩,
    renderLoop_frames env (createResources env env.glfwCreateWindow).2 fuel 0
      ⟨vertices0, color0⟩ rfl rfl f hf⟩

theorem filter_isBufferSubData_compileShader (env : Env) (t : ShaderType) (src : ShaderSource) :
    (compileShader env t src).1.filter Call.isBufferSubData = [] := by
  by_cases h : env.glGetShaderiv (env.glCreateShader t) = 0 <;>
    simp [compileShader, h, Call.isBufferSubData]

theorem filter_isBufferSubData_createResources (env : Env) (w : Nat) :
    (createResources env w).1.filter Call.isBufferSubData = [] := by
  simp only [createResources, List.filter_append, filter_isBufferSubData_compileShader]
  rfl

theorem filter_isBufferSubData_windowHints (env : Env) :
    (windowHints env).filter Call.isBufferSubData = [] := by
  unfold windowHints
  split <;> rfl

/-- Every `glBufferSubData` of a run of `main` is issued inside an iteration of
the render loop. -/
theorem bufferSubData_mem_trace (env : Env) (fuel : Nat) (c : Call)
    (hc : c ∈ (main env fuel).trace) (hb : c.isBufferSubData = true) :
    ∃ f ∈ (main env fuel).frames, c ∈ f := by
  have key : ∀ l : List Call, l.filter Call.isBufferSubData = [] → c ∉ l := by
    intro l hl hm
    have : c ∈ l.filter Call.isBufferSubData := List.mem_filter.mpr ⟨hm, hb⟩
    rw [hl] at this
    exact List.not_mem_nil _ this
  simp only [Outcome.trace, List.mem_append, List.mem_flatten] at hc
  rcases hc with (hc | hc) | hc
  · exfalso
    revert hc
    apply key
    by_cases h1 : env.glfwInit = 0
    · rw [main_glfwInit_fails env fuel h1]; rfl
    by_cases h2 : env.glfwCreateWindow = 0
    · rw [main_glfwCreateWindow_fails env fuel h1 h2]
      simp only [List.filter_append, filter_isBufferSubData_windowHints]; rfl
    by_cases h3 : env.gladLoadGLLoader = 0
    · rw [main_gladLoadGLLoader_fails env fuel h1 h2 h3]
      simp only [initCalls, List.filter_append, filter_isBufferSubData_windowHints]; rfl
    rw [main_initialised env fuel h1 h2 h3]
    simp only [initCalls, List.filter_append, filter_isBufferSubData_windowHints,
      filter_isBufferSubData_createResources]; rfl
  · exact hc
  · exfalso
    revert hc
    apply key
    by_cases h1 : env.glfwInit = 0
    · rw [main_glfwInit_fails env fuel h1]; rfl
    by_cases h2 : env.glfwCreateWindow = 0
    · rw [main_glfwCreateWindow_fails env fuel h1 h2]; rfl
    by_cases h3 : env.gladLoadGLLoader = 0
    · rw [main_gladLoadGLLoader_fails env fuel h1 h2 h3]; rfl
    rw [main_initialised env fuel h1 h2 h3]
    dsimp only
    split <;> rfl

/-! ## Claims about the colour update and the vertex layout -/

/-- C2: for every colour `c` and every 18-float `vertices`, after the update loop
each vertex `i < 3` holds `c` in its colour components `6i+3`, `6i+4`, `6i+5`, the
array still has 18 floats, and the only `glBufferSubData` of a loop iteration
whose colour editor left `c` uploads exactly this array, whole (offset 0, size
`sizeof(float)` times its length). -/
theorem update_sets_every_vertex_colour (c : Color) (vertices : Array F32)
    (h : vertices.size = 18) :
    (∀ i, i < 3 →
      (updateVertexColors c vertices)[6 * i + 3]? = some c.c0 ∧
      (updateVertexColors c vertices)[6 * i + 4]? = some c.c1 ∧
      (updateVertexColors c vertices)[6 * i + 5]? = some c.c2) ∧
    (updateVertexColors c vertices).size = 18 ∧
    ∀ (env : Env) (g : Handles) (k : Nat) (prev : Color), env.ImGui_ColorEdit3 k prev = c →
      (loopBody env g k ⟨vertices, prev⟩).1.filter Call.isBufferSubData =
        [.glBufferSubData 0 (sizeofFloat * (updateVertexColors c vertices).size)
          (updateVertexColors c vertices)] := by
  refine ⟨?_, ?_, ?_⟩
  · intro i hi
    have hcases : i = 0 ∨ i = 1 ∨ i = 2 := by omega
    rcases hcases with rfl | rfl | rfl <;>
      simp [getElem?_updateVertexColors c vertices h]
  · rw [size_updateVertexColors, h]
  · intro env g k prev hc
    rw [filter_isBufferSubData_loopBody, size_updateVertexColors, h, hc]
    rfl

/-- C2 at a concrete input: the initial array and the colour (0.2, 0.3, 1.0). -/
theorem update_sets_every_vertex_colour_witness :
    vertices0.size = 18 ∧
    ((∀ i, i < 3 →
      (updateVertexColors ⟨f0_2, f0_3, f1_0⟩ vertices0)[6 * i + 3]? = some f0_2 ∧
      (updateVertexColors ⟨f0_2, f0_3, f1_0⟩ vertices0)[6 * i + 4]? = some f0_3 ∧
      (updateVertexColors ⟨f0_2, f0_3, f1_0⟩ vertices0)[6 * i + 5]? = some f1_0) ∧
    (updateVertexColors ⟨f0_2, f0_3, f1_0⟩ vertices0).size = 18 ∧
    ∀ (env : Env) (g : Handles) (k : Nat) (prev : Color),
      env.ImGui_ColorEdit3 k prev = ⟨f0_2, f0_3, f1_0⟩ →
      (loopBody env g k ⟨vertices0, prev⟩).1.filter Call.isBufferSubData =
        [.glBufferSubData 0 (sizeofFloat * (updateVertexColors ⟨f0_2, f0_3, f1_0⟩ vertices0).size)
          (updateVertexColors ⟨f0_2, f0_3, f1_0⟩ vertices0)]) :=
  ⟨rfl, update_sets_every_vertex_colour ⟨f0_2, f0_3, f1_0⟩ vertices0 rfl⟩

/-- C8: for every colour `c` and every 18-float `vertices`, the update loop
assigns only to indices inside the array, leaves the position components
`6i`, `6i+1`, `6i+2` of each vertex `i < 3` (and every index it does not assign
to) as they were; with the initial colour it leaves the initial array unchanged;
and every array a run of `main` uploads with `glBufferSubData` holds the
positions (0, 0.5, 0), (-0.5, -0.5, 0), (0.5, -0.5, 0). -/
theorem update_keeps_positions (c : Color) (vertices : Array F32) (h : vertices.size = 18) :
    (∀ j ∈ updateLoopIndices c, j < vertices.size) ∧
    (∀ i, i < 3 →
      (updateVertexColors c vertices)[6 * i]? = vertices[6 * i]? ∧
      (updateVertexColors c vertices)[6 * i + 1]? = vertices[6 * i + 1]? ∧
      (updateVertexColors c vertices)[6 * i + 2]? = vertices[6 * i + 2]?) ∧
    (∀ j, j ∉ updateLoopIndices c → (updateVertexColors c vertices)[j]? = vertices[j]?) ∧
    updateVertexColors color0 vertices0 = vertices0 ∧
    (∀ (env : Env) (fuel offset size : Nat) (data : Array F32),
      Call.glBufferSubData offset size data ∈ (main env fuel).trace →
      positionsOf data =
        [some f0_0, some f0_5, some f0_0,
         some fneg0_5, some fneg0_5, some f0_0,
         some f0_5, some fneg0_5, some f0_0]) := by
  refine ⟨?_, ?_, ?_, ?_, ?_⟩
  · intro j hj
    rw [updateLoopIndices_eq] at hj
    simp only [List.mem_cons, List.mem_singleton, List.not_mem_nil, or_false] at hj
    omega
  · intro i hi
    have hcases : i = 0 ∨ i = 1 ∨ i = 2 := by omega
    rcases hcases with rfl | rfl | rfl <;>
      simp [getElem?_updateVertexColors c vertices h]
  · intro j hj
    rw [updateLoopIndices_eq] at hj
    simp only [List.mem_cons, List.mem_singleton, List.not_mem_nil, or_false, not_or] at hj
    rw [getElem?_updateVertexColors c vertices h]
    simp [hj]
  · rfl
  · intro env fuel offset size data hmem
    obtain ⟨f, hf, hcf⟩ := bufferSubData_mem_trace env fuel _ hmem rfl
    obtain ⟨_, j, s, hsz, hpos, _, rfl⟩ := main_frames env fuel f hf
    have hin : Call.glBufferSubData offset size data ∈
        (loopBody env (createResources env env.glfwCreateWindow).2 j s).1 := by
      rcases List.mem_cons.mp hcf with hx | hx
      · cases hx
      · exact hx
    have hfil := List.mem_filter.mpr ⟨hin, (rfl : (Call.glBufferSubData offset size data).isBufferSubData = true)⟩
    rw [filter_isBufferSubData_loopBody] at hfil
    rcases List.mem_singleton.mp hfil with hx
    injection hx with _ _ hd
    rw [hd, positionsOf_updateVertexColors _ _ hsz, hpos]
    rfl

/-- C8 at a concrete input: the initial array and the colour (0.2, 0.3, 1.0). -/
theorem update_keeps_positions_witness :
    vertices0.size = 18 ∧
    ((∀ j ∈ updateLoopIndices ⟨f0_2, f0_3, f1_0⟩, j < vertices0.size) ∧
    (∀ i, i < 3 →
      (updateVertexColors ⟨f0_2, f0_3, f1_0⟩ vertices0)[6 * i]? = vertices0[6 * i]? ∧
      (updateVertexColors ⟨f0_2, f0_3, f1_0⟩ vertices0)[6 * i + 1]? = vertices0[6 * i + 1]? ∧
      (updateVertexColors ⟨f0_2, f0_3, f1_0⟩ vertices0)[6 * i + 2]? = vertices0[6 * i + 2]?) ∧
    (∀ j, j ∉ updateLoopIndices ⟨f0_2, f0_3, f1_0⟩ →
      (updateVertexColors ⟨f0_2, f0_3, f1_0⟩ vertices0)[j]? = vertices0[j]?) ∧
    updateVertexColors color0 vertices0 = vertices0 ∧
    (∀ (env : Env) (fuel offset size : Nat) (data : Array F32),
      Call.glBufferSubData offset size data ∈ (main env fuel).trace →
      positionsOf data =
        [some f0_0, some f0_5, some f0_0,
         some fneg0_5, some fneg0_5, some f0_0,
         some f0_5, some fneg0_5, some f0_0])) :=
  ⟨rfl, update_keeps_positions ⟨f0_2, f0_3, f1_0⟩ vertices0 rfl⟩

/-- C9: with stride 6 floats, attribute 0 (3 floats at float offset 0) and
attribute 1 (3 floats at float offset 3), the floats fetched for
`glDrawArrays(GL_TRIANGLES, 0, 3)` all lie inside the 18-float buffer, the
indices read by the two attributes are disjoint and together are exactly
0..17, and attribute 1 reads exactly the indices the colour update loop writes;
these are the two attribute pointers `main` sets up and the one draw call of a
loop iteration. -/
theorem attribute_layout_matches_update :
    (∀ b ∈ positionAttrib.drawBytes 0 3 ++ colorAttrib.drawBytes 0 3,
      b % sizeofFloat = 0 ∧ b + sizeofFloat ≤ sizeofVertices) ∧
    (∀ j ∈ positionAttrib.drawIndices 0 3 ++ colorAttrib.drawIndices 0 3, j < vertices0.size) ∧
    (∀ j ∈ positionAttrib.drawIndices 0 3, j ∉ colorAttrib.drawIndices 0 3) ∧
    (∀ j, j < 18 ↔ (j ∈ positionAttrib.drawIndices 0 3 ∨ j ∈ colorAttrib.drawIndices 0 3)) ∧
    (∀ (c : Color) (j : Nat), j ∈ colorAttrib.drawIndices 0 3 ↔ j ∈ updateLoopIndices c) ∧
    (∀ (env : Env) (window : Nat),
      (createResources env window).1.filter Call.isVertexAttribPointer =
        [.glVertexAttribPointer ⟨0, 3, 6 * sizeofFloat, 0⟩,
         .glVertexAttribPointer ⟨1, 3, 6 * sizeofFloat, 3 * sizeofFloat⟩]) ∧
    (∀ (env : Env) (g : Handles) (k : Nat) (st : LoopState),
      (loopBody env g k st).1.filter Call.isDrawArrays = [.glDrawArrays .GL_TRIANGLES 0 3]) := by
  have hp : positionAttrib.drawIndices 0 3 = [0, 1, 2, 6, 7, 8, 12, 13, 14] := rfl
  have hc : colorAttrib.drawIndices 0 3 = [3, 4, 5, 9, 10, 11, 15, 16, 17] := rfl
  refine ⟨by decide, by decide, by decide, ?_, ?_, ?_, ?_⟩
  · intro j
    rw [hp, hc]
    simp only [List.mem_cons, List.mem_singleton, List.not_mem_nil, or_false]
    omega
  · intro c j
    rw [hc, updateLoopIndices_eq]
  · intro env window
    by_cases h1 : env.glGetShaderiv (env.glCreateShader .GL_VERTEX_SHADER) = 0 <;>
    by_cases h2 : env.glGetShaderiv (env.glCreateShader .GL_FRAGMENT_SHADER) = 0 <;>
      simp [createResources, compileShader, h1, h2, Call.isVertexAttribPointer,
        positionAttrib, colorAttrib]
  · intro env g k st
    simp only [loopBody, List.filter_append, filter_isDrawArrays_processInput]
    rfl

/-! ## Claims about the order of calls -/

theorem filter_isFrameStep_processInput (env : Env) (w k : Nat) :
    (processInput env w k).filter Call.isFrameStep = [] := by
  unfold processInput
  split <;> rfl

theorem filter_isFrameStep_loopBody (env : Env) (g : Handles) (k : Nat) (st : LoopState) :
    (loopBody env g k st).1.filter Call.isFrameStep =
      [.ImGui_NewFrame, .ImGui_Begin, .ImGui_ColorEdit3 (env.ImGui_ColorEdit3 k st.color),
       .ImGui_End, .ImGui_Render,
       .glBufferSubData 0 sizeofVertices
         (updateVertexColors (env.ImGui_ColorEdit3 k st.color) st.vertices),
       .glUseProgram g.shaderProgram,
       .glUniformMatrix4fv (env.glGetUniformLocation k) (env.glfwGetTime k),
       .glDrawArrays .GL_TRIANGLES 0 3,
       .ImGui_ImplOpenGL3_RenderDrawData,
       .glfwSwapBuffers g.window] := by
  simp only [loopBody, List.filter_append, filter_isFrameStep_processInput]
  rfl

theorem main_frames_demoEnv : (main demoEnv 2).frames = [demoFrame] := rfl

/-- C1: in every iteration `f` of the render loop of a run of `main`, the frame
steps are issued in this order: the ImGui frame (NewFrame, Begin, ColorEdit3,
End, Render), the upload of `vertices` with `glBufferSubData`, the draw
(glUseProgram of the shader program, the `transform` uniform, one
`glDrawArrays(GL_TRIANGLES, 0, 3)`), the overlay (RenderDrawData), then
`glfwSwapBuffers`; and the uploaded array holds, in the colour components of all
three vertices, the colour `ColorEdit3` left in that same iteration. -/
theorem frame_steps_in_order (env : Env) (fuel : Nat) (f : List Call)
    (hf : f ∈ (main env fuel).frames) :
    ∃ (c : Color) (data : Array F32) (location : Int) (angle : F32),
      f.filter Call.isFrameStep =
        [.ImGui_NewFrame, .ImGui_Begin, .ImGui_ColorEdit3 c, .ImGui_End, .ImGui_Render,
         .glBufferSubData 0 (18 * sizeofFloat) data,
         .glUseProgram env.glCreateProgram,
         .glUniformMatrix4fv location angle,
         .glDrawArrays .GL_TRIANGLES 0 3,
         .ImGui_ImplOpenGL3_RenderDrawData,
         .glfwSwapBuffers env.glfwCreateWindow] ∧
      ∀ i, i < 3 →
        data[6 * i + 3]? = some c.c0 ∧ data[6 * i + 4]? = some c.c1 ∧
        data[6 * i + 5]? = some c.c2 := by
  obtain ⟨_, j, s, hsz, _, _, rfl⟩ := main_frames env fuel f hf
  refine ⟨env.ImGui_ColorEdit3 j s.color,
    updateVertexColors (env.ImGui_ColorEdit3 j s.color) s.vertices,
    env.glGetUniformLocation j, env.glfwGetTime j, ?_, ?_⟩
  · rw [List.filter_cons]
    simp only [Call.isFrameStep, Bool.false_eq_true, if_false]
    rw [filter_isFrameStep_loopBody]
    rfl
  · intro i hi
    have hcases : i = 0 ∨ i = 1 ∨ i = 2 := by omega
    rcases hcases with rfl | rfl | rfl <;>
      simp [getElem?_updateVertexColors _ s.vertices hsz]

/-- C1 at a concrete input: the one iteration of `main` in `demoEnv`. -/
theorem frame_steps_in_order_witness :
    demoFrame ∈ (main demoEnv 2).frames ∧
    ∃ (c : Color) (data : Array F32) (location : Int) (angle : F32),
      demoFrame.filter Call.isFrameStep =
        [.ImGui_NewFrame, .ImGui_Begin, .ImGui_ColorEdit3 c, .ImGui_End, .ImGui_Render,
         .glBufferSubData 0 (18 * sizeofFloat) data,
         .glUseProgram demoEnv.glCreateProgram,
         .glUniformMatrix4fv location angle,
         .glDrawArrays .GL_TRIANGLES 0 3,
         .ImGui_ImplOpenGL3_RenderDrawData,
         .glfwSwapBuffers demoEnv.glfwCreateWindow] ∧
      ∀ i, i < 3 →
        data[6 * i + 3]? = some c.c0 ∧ data[6 * i + 4]? = some c.c1 ∧
        data[6 * i + 5]? = some c.c2 :=
  ⟨by rw [main_frames_demoEnv]; exact List.mem_singleton.mpr rfl,
   frame_steps_in_order demoEnv 2 demoFrame
     (by rw [main_frames_demoEnv]; exact List.mem_singleton.mpr rfl)⟩

/-! ## Claims about initialisation failure -/

theorem all_isInitStep_windowHints (env : Env) :
    (windowHints env).all Call.isInitStep = true := by
  unfold windowHints
  split <;> rfl

theorem filter_isCout_windowHints (env : Env) :
    (windowHints env).filter Call.isCout = [] := by
  unfold windowHints
  split <;> rfl

/-- C4: when `glfwInit` fails `main` returns -1 having called nothing else; when
`glfwCreateWindow` fails it returns -1 right after that call; when
`gladLoadGLLoader` fails it returns -1 right after that call; in all three cases
every call issued is an initialisation call (no shader, buffer, GUI or render
loop call) and no loop iteration ran; and `main` returns 0 only when all three
steps succeeded. -/
theorem init_failure_returns_minus_one (env : Env) (fuel : Nat) :
    (env.glfwInit = 0 →
      (main env fuel).exit = some (-1) ∧ (main env fuel).trace = [.glfwInit]) ∧
    (env.glfwInit ≠ 0 → env.glfwCreateWindow = 0 →
      (main env fuel).exit = some (-1) ∧
      (main env fuel).trace = [.glfwInit] ++ windowHints env ++ [.glfwCreateWindow 800 600]) ∧
    (env.glfwInit ≠ 0 → env.glfwCreateWindow ≠ 0 → env.gladLoadGLLoader = 0 →
      (main env fuel).exit = some (-1) ∧
      (main env fuel).trace =
        [.glfwInit] ++ windowHints env ++
          [.glfwCreateWindow 800 600, .glfwMakeContextCurrent env.glfwCreateWindow,
           .glfwSetFramebufferSizeCallback env.glfwCreateWindow, .gladLoadGLLoader]) ∧
    (env.glfwInit = 0 ∨ env.glfwCreateWindow = 0 ∨ env.gladLoadGLLoader = 0 →
      (main env fuel).exit = some (-1) ∧
      (main env fuel).trace.all Call.isInitStep = true ∧
      (main env fuel).frames = []) ∧
    ((main env fuel).exit = some 0 →
      env.glfwInit ≠ 0 ∧ env.glfwCreateWindow ≠ 0 ∧ env.gladLoadGLLoader ≠ 0) := by
  refine ⟨?_, ?_, ?_, ?_, ?_⟩
  · intro h1
    rw [main_glfwInit_fails env fuel h1]
    exact ⟨rfl, rfl⟩
  · intro h1 h2
    rw [main_glfwCreateWindow_fails env fuel h1 h2]
    exact ⟨rfl, by simp [Outcome.trace]⟩
  · intro h1 h2 h3
    rw [main_gladLoadGLLoader_fails env fuel h1 h2 h3]
    exact ⟨rfl, by simp [Outcome.trace, initCalls]⟩
  · intro h
    by_cases h1 : env.glfwInit = 0
    · rw [main_glfwInit_fails env fuel h1]
      exact ⟨rfl, rfl, rfl⟩
    by_cases h2 : env.glfwCreateWindow = 0
    · rw [main_glfwCreateWindow_fails env fuel h1 h2]
      refine ⟨rfl, ?_, rfl⟩
      simp [Outcome.trace, List.all_append, all_isInitStep_windowHints, Call.isInitStep]
    by_cases h3 : env.gladLoadGLLoader = 0
    · rw [main_gladLoadGLLoader_fails env fuel h1 h2 h3]
      refine ⟨rfl, ?_, rfl⟩
      simp [Outcome.trace, initCalls, List.all_append, all_isInitStep_windowHints,
        Call.isInitStep]
    · rcases h with h | h | h
      · exact absurd h h1
      · exact absurd h h2
      · exact absurd h h3
  · intro h
    by_cases h1 : env.glfwInit = 0
    · rw [main_glfwInit_fails env fuel h1] at h
      simp at h
    by_cases h2 : env.glfwCreateWindow = 0
    · rw [main_glfwCreateWindow_fails env fuel h1 h2] at h
      simp at h
    by_cases h3 : env.gladLoadGLLoader = 0
    · rw [main_gladLoadGLLoader_fails env fuel h1 h2 h3] at h
      simp at h
    exact ⟨h1, h2, h3⟩

/-- C4 at concrete inputs: a run in which `gladLoadGLLoader` fails (the third
part applies), and a run that returns 0 (the last part applies). -/
theorem init_failure_returns_minus_one_witness :
    (gladFailsEnv.glfwInit ≠ 0 ∧ gladFailsEnv.glfwCreateWindow ≠ 0 ∧
      gladFailsEnv.gladLoadGLLoader = 0 ∧
      (main gladFailsEnv 5).exit = some (-1) ∧
      (main gladFailsEnv 5).trace =
        [.glfwInit] ++ windowHints gladFailsEnv ++
          [.glfwCreateWindow 800 600, .glfwMakeContextCurrent gladFailsEnv.glfwCreateWindow,
           .glfwSetFramebufferSizeCallback gladFailsEnv.glfwCreateWindow,
           .gladLoadGLLoader]) ∧
    ((main demoEnv 2).exit = some 0 ∧
      demoEnv.glfwInit ≠ 0 ∧ demoEnv.glfwCreateWindow ≠ 0 ∧ demoEnv.gladLoadGLLoader ≠ 0) :=
  ⟨⟨by decide, by decide, by decide,
    (init_failure_returns_minus_one gladFailsEnv 5).2.2.1 (by decide) (by decide) (by decide)⟩,
   ⟨rfl, (init_failure_returns_minus_one demoEnv 2).2.2.2.2 rfl⟩⟩

/-- C5, as stated, fails: in a run where `glfwInit` fails, in one where
`glfwCreateWindow` fails and in one where `gladLoadGLLoader` fails, `main`
returns -1 and no call it issued is a write to `std::cout`. -/
theorem init_failure_diagnostic_counterexample :
    (glfwInitFailsEnv.glfwInit = 0 ∧ (main glfwInitFailsEnv 0).exit = some (-1) ∧
      ¬ ∃ c ∈ (main glfwInitFailsEnv 0).trace, c.isCout = true) ∧
    (noWindowEnv.glfwInit ≠ 0 ∧ noWindowEnv.glfwCreateWindow = 0 ∧
      (main noWindowEnv 0).exit = some (-1) ∧
      ¬ ∃ c ∈ (main noWindowEnv 0).trace, c.isCout = true) ∧
    (gladFailsEnv.glfwInit ≠ 0 ∧ gladFailsEnv.glfwCreateWindow ≠ 0 ∧
      gladFailsEnv.gladLoadGLLoader = 0 ∧ (main gladFailsEnv 0).exit = some (-1) ∧
      ¬ ∃ c ∈ (main gladFailsEnv 0).trace, c.isCout = true) := by
  have key : ∀ l : List Call, l.filter Call.isCout = [] → ¬ ∃ c ∈ l, c.isCout = true := by
    intro l hl ⟨c, hc, hb⟩
    have : c ∈ l.filter Call.isCout := List.mem_filter.mpr ⟨hc, hb⟩
    rw [hl] at this
    exact List.not_mem_nil _ this
  exact ⟨⟨rfl, rfl, key _ rfl⟩, ⟨by decide, rfl, rfl, key _ rfl⟩,
    ⟨by decide, by decide, rfl, rfl, key _ rfl⟩⟩

/-- C5, amended: when `glfwInit`, `glfwCreateWindow` or `gladLoadGLLoader` fails,
`main` returns -1 and has written nothing to `std::cout`. -/
theorem init_failure_is_silent (env : Env) (fuel : Nat)
    (h : env.glfwInit = 0 ∨ env.glfwCreateWindow = 0 ∨ env.gladLoadGLLoader = 0) :
    (main env fuel).exit = some (-1) ∧ (main env fuel).trace.filter Call.isCout = [] := by
  by_cases h1 : env.glfwInit = 0
  · rw [main_glfwInit_fails env fuel h1]
    exact ⟨rfl, rfl⟩
  by_cases h2 : env.glfwCreateWindow = 0
  · rw [main_glfwCreateWindow_fails env fuel h1 h2]
    refine ⟨rfl, ?_⟩
    simp [Outcome.trace, List.filter_append, filter_isCout_windowHints, Call.isCout]
  by_cases h3 : env.gladLoadGLLoader = 0
  · rw [main_gladLoadGLLoader_fails env fuel h1 h2 h3]
    refine ⟨rfl, ?_⟩
    simp [Outcome.trace, initCalls, List.filter_append, filter_isCout_windowHints, Call.isCout]
  · rcases h with h | h | h
    · exact absurd h h1
    · exact absurd h h2
    · exact absurd h h3

/-- C5 amended, at a concrete input: a run in which `glfwCreateWindow` fails. -/
theorem init_failure_is_silent_witness :
    (noWindowEnv.glfwInit = 0 ∨ noWindowEnv.glfwCreateWindow = 0 ∨
      noWindowEnv.gladLoadGLLoader = 0) ∧
    (main noWindowEnv 3).exit = some (-1) ∧
    (main noWindowEnv 3).trace.filter Call.isCout = [] :=
  ⟨Or.inr (Or.inl rfl), init_failure_is_silent noWindowEnv 3 (Or.inr (Or.inl rfl))⟩

/-! ## Claims about resources -/

/-- C6 at the failing input: when `glfwInit` succeeds and `glfwCreateWindow`
returns `nullptr`, `main` returns -1 after `glfwInit`, the window hints and
`glfwCreateWindow`, and never calls `glfwTerminate`: of the paired calls it
issued only `glfwInit`.  The same holds when `gladLoadGLLoader` fails.  The
normal exit does pair every creation with its destruction and calls
`glfwTerminate` once, last. -/
theorem early_return_skips_glfwTerminate :
    (noWindowEnv.glfwInit ≠ 0 ∧ noWindowEnv.glfwCreateWindow = 0 ∧
      (main noWindowEnv 0).exit = some (-1) ∧
      (main noWindowEnv 0).trace =
        [.glfwInit,
         .glfwWindowHint .GLFW_CONTEXT_VERSION_MAJOR_3,
         .glfwWindowHint .GLFW_CONTEXT_VERSION_MINOR_3,
         .glfwWindowHint .GLFW_OPENGL_PROFILE_CORE,
         .glfwCreateWindow 800 600] ∧
      (main noWindowEnv 0).trace.filter Call.isLifecycle = [.glfwInit] ∧
      (main noWindowEnv 0).trace.countP Call.isGlfwTerminate = 0) ∧
    (gladFailsEnv.glfwInit ≠ 0 ∧ gladFailsEnv.glfwCreateWindow ≠ 0 ∧
      gladFailsEnv.gladLoadGLLoader = 0 ∧
      (main gladFailsEnv 0).exit = some (-1) ∧
      (main gladFailsEnv 0).trace.filter Call.isLifecycle = [.glfwInit] ∧
      (main gladFailsEnv 0).trace.countP Call.isGlfwTerminate = 0) ∧
    ((main demoEnv 2).exit = some 0 ∧
      (main demoEnv 2).trace.filter Call.isLifecycle =
        [.glfwInit,
         .glCreateShader .GL_VERTEX_SHADER, .glCreateShader .GL_FRAGMENT_SHADER,
         .glCreateProgram,
         .glDeleteShader 1, .glDeleteShader 2,
         .glGenVertexArrays 1, .glGenBuffers 1,
         .ImGui_CreateContext, .ImGui_ImplGlfw_InitForOpenGL 1, .ImGui_ImplOpenGL3_Init,
         .ImGui_ImplOpenGL3_Shutdown, .ImGui_ImplGlfw_Shutdown, .ImGui_DestroyContext,
         .glDeleteVertexArrays 1, .glDeleteBuffers 1, .glDeleteProgram 3,
         .glfwTerminate] ∧
      (main demoEnv 2).trace.countP Call.isGlfwTerminate = 1 ∧
      (main demoEnv 2).trace.getLast? = some .glfwTerminate) :=
  ⟨⟨by decide, rfl, rfl, rfl, rfl, rfl⟩, ⟨by decide, by decide, rfl, rfl, rfl, rfl⟩,
   ⟨rfl, rfl, rfl, rfl⟩⟩

theorem filter_flatten_eq_nil (p : Call → Bool) (L : List (List Call))
    (h : ∀ f ∈ L, f.filter p = []) : L.flatten.filter p = [] := by
  induction L with
  | nil => rfl
  | cons f L ih =>
    rw [List.flatten_cons, List.filter_append, h f (List.mem_cons_self _ _),
      ih (fun x hx => h x (List.mem_cons_of_mem _ hx))]
    rfl

theorem filter_isCreation_loopBody (env : Env) (g : Handles) (k : Nat) (st : LoopState) :
    (loopBody env g k st).1.filter Call.isCreation = [] := by
  by_cases h : env.glfwGetKey k = GLFW_PRESS <;>
    simp [loopBody, processInput, h, Call.isCreation]

theorem filter_isCreation_frame (env : Env) (fuel : Nat) (f : List Call)
    (hf : f ∈ (main env fuel).frames) : f.filter Call.isCreation = [] := by
  obtain ⟨_, j, s, _, _, _, rfl⟩ := main_frames env fuel f hf
  rw [List.filter_cons]
  simp only [Call.isCreation, Bool.false_eq_true, if_false]
  exact filter_isCreation_loopBody env _ j s

theorem filter_isBufferData_frame (env : Env) (fuel : Nat) (f : List Call)
    (hf : f ∈ (main env fuel).frames) : f.filter Call.isBufferData = [] := by
  have h := filter_isCreation_frame env fuel f hf
  rw [List.filter_eq_nil_iff] at h ⊢
  intro c hc hb
  apply h c hc
  cases c <;> simp_all [Call.isBufferData, Call.isCreation]

theorem filter_isBufferData_createResources (env : Env) (w : Nat) :
    (createResources env w).1.filter Call.isBufferData =
      [.glBufferData sizeofVertices vertices0] := by
  by_cases h1 : env.glGetShaderiv (env.glCreateShader .GL_VERTEX_SHADER) = 0 <;>
  by_cases h2 : env.glGetShaderiv (env.glCreateShader .GL_FRAGMENT_SHADER) = 0 <;>
    simp [createResources, compileShader, h1, h2, Call.isBufferData]

theorem filter_isBufferData_windowHints (env : Env) :
    (windowHints env).filter Call.isBufferData = [] := by
  unfold windowHints
  split <;> rfl

/-- The `glBufferData` calls of a run of `main`: one, once the three
initialisation steps succeeded, and none otherwise. -/
theorem filter_isBufferData_trace (env : Env) (fuel : Nat) :
    (main env fuel).trace.filter Call.isBufferData =
      if env.glfwInit ≠ 0 ∧ env.glfwCreateWindow ≠ 0 ∧ env.gladLoadGLLoader ≠ 0
      then [.glBufferData sizeofVertices vertices0] else [] := by
  have hfr := filter_flatten_eq_nil Call.isBufferData (main env fuel).frames
    (filter_isBufferData_frame env fuel)
  unfold Outcome.trace
  rw [List.filter_append, List.filter_append, hfr]
  by_cases h1 : env.glfwInit = 0
  · rw [main_glfwInit_fails env fuel h1]
    simp [h1, Call.isBufferData]
  by_cases h2 : env.glfwCreateWindow = 0
  · rw [main_glfwCreateWindow_fails env fuel h1 h2]
    simp [h2, List.filter_append, filter_isBufferData_windowHints, Call.isBufferData]
  by_cases h3 : env.gladLoadGLLoader = 0
  · rw [main_gladLoadGLLoader_fails env fuel h1 h2 h3]
    simp [h3, initCalls, List.filter_append, filter_isBufferData_windowHints,
      Call.isBufferData]
  rw [main_initialised env fuel h1 h2 h3]
  dsimp only
  split <;>
    simp [h1, h2, h3, initCalls, List.filter_append, filter_isBufferData_windowHints,
      filter_isBufferData_createResources, Call.isBufferData, cleanup]

/-- C7: no iteration of the render loop of a run of `main` issues a creating or
allocating call; the run allocates the vertex buffer store at most once, and
exactly once with the size of 18 floats when the three initialisation steps
succeeded; and every `glBufferSubData` of the run writes at offset 0 exactly
that size of data taken from an 18-float array, so inside the allocated store. -/
theorem resource_creation_is_one_time (env : Env) (fuel : Nat) :
    (∀ f ∈ (main env fuel).frames, f.filter Call.isCreation = []) ∧
    ((main env fuel).trace.countP Call.isBufferData ≤ 1) ∧
    (env.glfwInit ≠ 0 → env.glfwCreateWindow ≠ 0 → env.gladLoadGLLoader ≠ 0 →
      (main env fuel).trace.filter Call.isBufferData =
        [.glBufferData (18 * sizeofFloat) vertices0]) ∧
    vertices0.size = 18 ∧
    (∀ (offset size : Nat) (data : Array F32),
      Call.glBufferSubData offset size data ∈ (main env fuel).trace →
      offset = 0 ∧ size = 18 * sizeofFloat ∧ data.size = 18 ∧
      offset + size ≤ 18 * sizeofFloat) := by
  refine ⟨filter_isCreation_frame env fuel, ?_, ?_, rfl, ?_⟩
  · rw [List.countP_eq_length_filter, filter_isBufferData_trace]
    split <;> simp
  · intro h1 h2 h3
    rw [filter_isBufferData_trace, if_pos ⟨h1, h2, h3⟩]
    rfl
  · intro offset size data hmem
    obtain ⟨f, hf, hcf⟩ := bufferSubData_mem_trace env fuel _ hmem rfl
    obtain ⟨_, j, s, hsz, _, _, rfl⟩ := main_frames env fuel f hf
    have hin : Call.glBufferSubData offset size data ∈
        (loopBody env (createResources env env.glfwCreateWindow).2 j s).1 := by
      rcases List.mem_cons.mp hcf with hx | hx
      · cases hx
      · exact hx
    have hfil := List.mem_filter.mpr
      ⟨hin, (rfl : (Call.glBufferSubData offset size data).isBufferSubData = true)⟩
    rw [filter_isBufferSubData_loopBody] at hfil
    have hx := List.mem_singleton.mp hfil
    injection hx with ho hs hd
    rw [ho, hs, hd, size_updateVertexColors, hsz]
    exact ⟨rfl, rfl, rfl, Nat.le_of_eq (Nat.zero_add _)⟩

/-- C7 at a concrete input: the run of `main` in `demoEnv`. -/
theorem resource_creation_is_one_time_witness :
    (demoEnv.glfwInit ≠ 0 ∧ demoEnv.glfwCreateWindow ≠ 0 ∧ demoEnv.gladLoadGLLoader ≠ 0) ∧
    (main demoEnv 2).trace.filter Call.isBufferData =
      [.glBufferData (18 * sizeofFloat) vertices0] ∧
    demoFrame ∈ (main demoEnv 2).frames ∧
    demoFrame.filter Call.isCreation = [] :=
  ⟨⟨by decide, by decide, by decide⟩,
   (resource_creation_is_one_time demoEnv 2).2.2.1 (by decide) (by decide) (by decide),
   List.mem_singleton.mpr rfl,
   (resource_creation_is_one_time demoEnv 2).1 demoFrame (List.mem_singleton.mpr rfl)⟩

/-! ## Claims about shader compilation -/

theorem compileShader_ok (env : Env) (t : ShaderType) (src : ShaderSource)
    (h : env.glGetShaderiv (env.glCreateShader t) ≠ 0) :
    compileShader env t src =
      ([.glCreateShader t, .glShaderSource (env.glCreateShader t) src,
        .glCompileShader (env.glCreateShader t), .glGetShaderiv (env.glCreateShader t)],
       env.glCreateShader t) := by
  simp [compileShader, h]

theorem compileShader_failed (env : Env) (t : ShaderType) (src : ShaderSource)
    (h : env.glGetShaderiv (env.glCreateShader t) = 0) :
    compileShader env t src =
      ([.glCreateShader t, .glShaderSource (env.glCreateShader t) src,
        .glCompileShader (env.glCreateShader t), .glGetShaderiv (env.glCreateShader t),
        .glGetShaderInfoLog (env.glCreateShader t) 512,
        .cout ("Shader compilation error:\n" ++
          env.glGetShaderInfoLog (env.glCreateShader t) ++ "\n")],
       env.glCreateShader t) := by
  simp [compileShader, h]

/-- Apart from the reporting calls, `compileShader` issues the same calls
whatever the compile status. -/
theorem filter_not_isCompileReport_compileShader (env : Env) (t : ShaderType)
    (src : ShaderSource) :
    (compileShader env t src).1.filter (fun c => !c.isCompileReport) =
      [.glCreateShader t, .glShaderSource (env.glCreateShader t) src,
       .glCompileShader (env.glCreateShader t), .glGetShaderiv (env.glCreateShader t)] := by
  by_cases h : env.glGetShaderiv (env.glCreateShader t) = 0
  · rw [compileShader_failed env t src h]; rfl
  · rw [compileShader_ok env t src h]; rfl

theorem compileShader_snd (env : Env) (t : ShaderType) (src : ShaderSource) :
    (compileShader env t src).2 = env.glCreateShader t := rfl

theorem createResources_snd_withCompileResult (env : Env) (status : Nat → Int)
    (log : Nat → String) (w : Nat) :
    (createResources (env.withCompileResult status log) w).2 = (createResources env w).2 := rfl

theorem filter_not_isCompileReport_createResources (env : Env) (status : Nat → Int)
    (log : Nat → String) (w : Nat) :
    (createResources (env.withCompileResult status log) w).1.filter
        (fun c => !c.isCompileReport) =
      (createResources env w).1.filter (fun c => !c.isCompileReport) := by
  simp only [createResources, List.filter_append, filter_not_isCompileReport_compileShader,
    compileShader_snd]
  rfl

theorem renderLoop_withCompileResult (env : Env) (status : Nat → Int) (log : Nat → String)
    (g : Handles) :
    ∀ (fuel k : Nat) (st : LoopState),
      renderLoop (env.withCompileResult status log) g fuel k st = renderLoop env g fuel k st := by
  intro fuel
  induction fuel with
  | zero => intro k st; rfl
  | succ n ih =>
    intro k st
    have hb : loopBody (env.withCompileResult status log) g k st = loopBody env g k st := rfl
    have hw : (env.withCompileResult status log).glfwWindowShouldClose k =
        env.glfwWindowShouldClose k := rfl
    simp only [renderLoop, hb, hw, ih]

/-- The exit status and, apart from the reporting calls, the calls of `main` do
not depend on the compile results. -/
theorem main_withCompileResult (env : Env) (status : Nat → Int) (log : Nat → String)
    (fuel : Nat) :
    (main (env.withCompileResult status log) fuel).exit = (main env fuel).exit ∧
    (main (env.withCompileResult status log) fuel).trace.filter (fun c => !c.isCompileReport) =
      (main env fuel).trace.filter (fun c => !c.isCompileReport) := by
  have e1 : (env.withCompileResult status log).glfwInit = env.glfwInit := rfl
  have e2 : (env.withCompileResult status log).glfwCreateWindow = env.glfwCreateWindow := rfl
  have e3 : (env.withCompileResult status log).gladLoadGLLoader = env.gladLoadGLLoader := rfl
  by_cases h1 : env.glfwInit = 0
  · rw [main_glfwInit_fails env fuel h1, main_glfwInit_fails _ fuel (e1.trans h1)]
    exact ⟨rfl, rfl⟩
  by_cases h2 : env.glfwCreateWindow = 0
  · rw [main_glfwCreateWindow_fails env fuel h1 h2,
      main_glfwCreateWindow_fails _ fuel (by rw [e1]; exact h1) (e2.trans h2)]
    exact ⟨rfl, rfl⟩
  by_cases h3 : env.gladLoadGLLoader = 0
  · rw [main_gladLoadGLLoader_fails env fuel h1 h2 h3,
      main_gladLoadGLLoader_fails _ fuel (by rw [e1]; exact h1) (by rw [e2]; exact h2)
        (e3.trans h3)]
    exact ⟨rfl, rfl⟩
  rw [main_initialised env fuel h1 h2 h3,
    main_initialised _ fuel (by rw [e1]; exact h1) (by rw [e2]; exact h2)
      (by rw [e3]; exact h3)]
  simp only [e2, createResources_snd_withCompileResult, renderLoop_withCompileResult,
    Outcome.trace, List.filter_append, filter_not_isCompileReport_createResources]
  exact ⟨trivial, rfl⟩

/-- C10: for every shader type and source, `compileShader` writes to `std::cout`
if and only if the compile status read from GL is zero, what it then writes is
"Shader compilation error:", a newline, the info log and a newline, and in both
cases it returns the handle `glCreateShader` gave; and with any other compile
results `main` returns the same exit status and, apart from the reporting calls,
issues the same calls, among them, once initialised, both `glAttachShader`,
`glLinkProgram` and a `glUseProgram` in every loop iteration. -/
theorem shader_failure_reported_not_fatal (env : Env) :
    (∀ (type : ShaderType) (src : ShaderSource),
      ((∃ c ∈ (compileShader env type src).1, c.isCout = true) ↔
        env.glGetShaderiv (env.glCreateShader type) = 0) ∧
      (∀ text, Call.cout text ∈ (compileShader env type src).1 →
        text = "Shader compilation error:\n" ++
          env.glGetShaderInfoLog (env.glCreateShader type) ++ "\n") ∧
      (compileShader env type src).2 = env.glCreateShader type) ∧
    (∀ (status : Nat → Int) (log : Nat → String) (fuel : Nat),
      (main (env.withCompileResult status log) fuel).exit = (main env fuel).exit ∧
      (main (env.withCompileResult status log) fuel).trace.filter
          (fun c => !c.isCompileReport) =
        (main env fuel).trace.filter (fun c => !c.isCompileReport)) ∧
    (∀ (fuel : Nat),
      env.glfwInit ≠ 0 → env.glfwCreateWindow ≠ 0 → env.gladLoadGLLoader ≠ 0 →
      Call.glAttachShader env.glCreateProgram (env.glCreateShader .GL_VERTEX_SHADER) ∈
        (main env fuel).setup ∧
      Call.glAttachShader env.glCreateProgram (env.glCreateShader .GL_FRAGMENT_SHADER) ∈
        (main env fuel).setup ∧
      Call.glLinkProgram env.glCreateProgram ∈ (main env fuel).setup ∧
      ∀ f ∈ (main env fuel).frames, Call.glUseProgram env.glCreateProgram ∈ f) := by
  refine ⟨?_, fun status log fuel => main_withCompileResult env status log fuel, ?_⟩
  · intro type src
    by_cases h : env.glGetShaderiv (env.glCreateShader type) = 0
    · rw [compileShader_failed env type src h]
      simp [h, Call.isCout]
    · rw [compileShader_ok env type src h]
      simp [h, Call.isCout]
  · intro fuel h1 h2 h3
    refine ⟨?_, ?_, ?_, ?_⟩
    · rw [main_initialised env fuel h1 h2 h3]
      simp [createResources, compileShader_snd]
    · rw [main_initialised env fuel h1 h2 h3]
      simp [createResources, compileShader_snd]
    · rw [main_initialised env fuel h1 h2 h3]
      simp [createResources, compileShader_snd]
    · intro f hf
      obtain ⟨_, j, s, _, _, _, rfl⟩ := main_frames env fuel f hf
      simp [loopBody, createResources]

/-- C10 at a concrete input: in the run of `main` in `demoEnv` the program is
attached, linked and used. -/
theorem shader_failure_reported_not_fatal_witness :
    (demoEnv.glfwInit ≠ 0 ∧ demoEnv.glfwCreateWindow ≠ 0 ∧ demoEnv.gladLoadGLLoader ≠ 0) ∧
    (Call.glAttachShader demoEnv.glCreateProgram (demoEnv.glCreateShader .GL_VERTEX_SHADER) ∈
        (main demoEnv 2).setup ∧
      Call.glAttachShader demoEnv.glCreateProgram
          (demoEnv.glCreateShader .GL_FRAGMENT_SHADER) ∈ (main demoEnv 2).setup ∧
      Call.glLinkProgram demoEnv.glCreateProgram ∈ (main demoEnv 2).setup ∧
      ∀ f ∈ (main demoEnv 2).frames, Call.glUseProgram demoEnv.glCreateProgram ∈ f) :=
  ⟨⟨by decide, by decide, by decide⟩,
   (shader_failure_reported_not_fatal demoEnv).2.2 2 (by decide) (by decide) (by decide)⟩

/-! ## Claims about the transform -/

theorem filter_isTransformStep_loopBody (env : Env) (g : Handles) (k : Nat) (st : LoopState) :
    (loopBody env g k st).1.filter Call.isTransformStep =
      [.glfwGetTime, .glGetUniformLocation g.shaderProgram,
       .glUniformMatrix4fv (env.glGetUniformLocation k) (env.glfwGetTime k)] := by
  by_cases h : env.glfwGetKey k = GLFW_PRESS <;>
    simp [loopBody, processInput, h, Call.isTransformStep]

/-- The `i`-th executed iteration of the render loop started at iteration `k` is
the loop test followed by the loop body of iteration `k + i`. -/
theorem renderLoop_frames_getElem? (env : Env) (g : Handles) :
    ∀ (fuel k : Nat) (st : LoopState) (i : Nat) (f : List Call),
      (renderLoop env g fuel k st).frames[i]? = some f →
      ∃ s : LoopState, f = .glfwWindowShouldClose g.window :: (loopBody env g (k + i) s).1 := by
  intro fuel
  induction fuel with
  | zero => intro k st i f hf; simp [renderLoop] at hf
  | succ n ih =>
    intro k st i f hf
    unfold renderLoop at hf
    by_cases hc : env.glfwWindowShouldClose k = 0
    · simp only [hc, ne_eq, not_true_eq_false, if_false] at hf
      cases i with
      | zero =>
        simp only [List.getElem?_cons_zero, Option.some.injEq] at hf
        exact ⟨st, hf.symm⟩
      | succ i =>
        simp only [List.getElem?_cons_succ] at hf
        obtain ⟨s, hs⟩ := ih (k + 1) _ i f hf
        refine ⟨s, ?_⟩
        have e : k + (i + 1) = k + 1 + i := by omega
        rw [e]; exact hs
    · simp [hc] at hf

/-- The `k`-th iteration of a run of `main` is the loop test followed by the loop
body of iteration `k`, with the handles `createResources` returned. -/
theorem main_frames_getElem? (env : Env) (fuel k : Nat) (f : List Call)
    (hf : (main env fuel).frames[k]? = some f) :
    ∃ s : LoopState, f = .glfwWindowShouldClose env.glfwCreateWindow ::
      (loopBody env (createResources env env.glfwCreateWindow).2 k s).1 := by
  by_cases h1 : env.glfwInit = 0
  · simp [main_glfwInit_fails env fuel h1] at hf
  by_cases h2 : env.glfwCreateWindow = 0
  · simp [main_glfwCreateWindow_fails env fuel h1 h2] at hf
  by_cases h3 : env.gladLoadGLLoader = 0
  · simp [main_gladLoadGLLoader_fails env fuel h1 h2 h3] at hf
  rw [main_initialised env fuel h1 h2 h3] at hf
  obtain ⟨s, hs⟩ := renderLoop_frames_getElem? env (createResources env env.glfwCreateWindow).2
    fuel 0 ⟨vertices0, color0⟩ k f hf
  refine ⟨s, ?_⟩
  rw [Nat.zero_add] at hs
  exact hs

theorem glPosition_glmRotate (c s x y z : ℝ) :
    glPosition (glmRotate 1 c s zAxis) x y z = ![x * c - y * s, x * s + y * c, z, 1] := by
  funext i
  fin_cases i <;>
    simp [glPosition, glmRotate, rotationMatrix, zAxis, Matrix.mulVec, Matrix.dotProduct,
      Fin.sum_univ_four] <;>
    ring

theorem glmRotate_one_zero : glmRotate (1 : Matrix (Fin 4) (Fin 4) ℝ) 1 0 zAxis = 1 := by
  rw [glmRotate, Matrix.one_mul]
  ext i j
  fin_cases i <;> fin_cases j <;>
    simp [rotationMatrix, zAxis, Matrix.vecHead, Matrix.vecTail]

/-- C3: in the `k`-th iteration of the render loop of a run of `main`, the calls
that compute and upload the uniform are glfwGetTime, glGetUniformLocation of the
shader program, and one glUniformMatrix4fv at the location just returned whose
matrix is `glm::rotate` of the identity by the time `t` just read about the axis
(0, 0, 1); for every `t` that matrix maps every position (x, y, z, 1) to
(x cos t - y sin t, x sin t + y cos t, z, 1), so z and w are unchanged and
x^2 + y^2 is preserved; and at `t = 0` it is the identity matrix. -/
theorem transform_is_rotation_about_z (env : Env) (fuel k : Nat) (f : List Call)
    (hf : (main env fuel).frames[k]? = some f) :
    f.filter Call.isTransformStep =
      [.glfwGetTime, .glGetUniformLocation env.glCreateProgram,
       .glUniformMatrix4fv (env.glGetUniformLocation k) (env.glfwGetTime k)] ∧
    (∀ t x y z : ℝ,
      glPosition (glmRotate 1 (Real.cos t) (Real.sin t) zAxis) x y z =
        ![x * Real.cos t - y * Real.sin t, x * Real.sin t + y * Real.cos t, z, 1]) ∧
    (∀ t x y z : ℝ,
      glPosition (glmRotate 1 (Real.cos t) (Real.sin t) zAxis) x y z 2 = z ∧
      glPosition (glmRotate 1 (Real.cos t) (Real.sin t) zAxis) x y z 3 = 1 ∧
      glPosition (glmRotate 1 (Real.cos t) (Real.sin t) zAxis) x y z 0 ^ 2 +
        glPosition (glmRotate 1 (Real.cos t) (Real.sin t) zAxis) x y z 1 ^ 2 =
          x ^ 2 + y ^ 2) ∧
    glmRotate (1 : Matrix (Fin 4) (Fin 4) ℝ) (Real.cos 0) (Real.sin 0) zAxis = 1 := by
  refine ⟨?_, ?_, ?_, ?_⟩
  · obtain ⟨s, rfl⟩ := main_frames_getElem? env fuel k f hf
    rw [List.filter_cons]
    simp only [Call.isTransformStep, Bool.false_eq_true, if_false]
    rw [filter_isTransformStep_loopBody]
    rfl
  · intro t x y z
    exact glPosition_glmRotate _ _ x y z
  · intro t x y z
    rw [glPosition_glmRotate]
    refine ⟨by simp, by simp, ?_⟩
    have h := Real.sin_sq_add_cos_sq t
    simp only [Matrix.cons_val_zero, Matrix.cons_val_one, Matrix.head_cons]
    nlinarith [h]
  · rw [Real.cos_zero, Real.sin_zero]
    exact glmRotate_one_zero

/-- C3 at a concrete input: the one iteration of `main` in `demoEnv`. -/
theorem transform_is_rotation_about_z_witness :
    (main demoEnv 2).frames[0]? = some demoFrame ∧
    (demoFrame.filter Call.isTransformStep =
      [.glfwGetTime, .glGetUniformLocation demoEnv.glCreateProgram,
       .glUniformMatrix4fv (demoEnv.glGetUniformLocation 0) (demoEnv.glfwGetTime 0)] ∧
    (∀ t x y z : ℝ,
      glPosition (glmRotate 1 (Real.cos t) (Real.sin t) zAxis) x y z =
        ![x * Real.cos t - y * Real.sin t, x * Real.sin t + y * Real.cos t, z, 1]) ∧
    (∀ t x y z : ℝ,
      glPosition (glmRotate 1 (Real.cos t) (Real.sin t) zAxis) x y z 2 = z ∧
      glPosition (glmRotate 1 (Real.cos t) (Real.sin t) zAxis) x y z 3 = 1 ∧
      glPosition (glmRotate 1 (Real.cos t) (Real.sin t) zAxis) x y z 0 ^ 2 +
        glPosition (glmRotate 1 (Real.cos t) (Real.sin t) zAxis) x y z 1 ^ 2 =
          x ^ 2 + y ^ 2) ∧
    glmRotate (1 : Matrix (Fin 4) (Fin 4) ℝ) (Real.cos 0) (Real.sin 0) zAxis = 1) :=
  ⟨by rw [main_frames_demoEnv]; rfl,
   transform_is_rotation_about_z demoEnv 2 0 demoFrame (by rw [main_frames_demoEnv]; rfl)⟩

end RotatingTriangle
